import Mathlib

/-!
Items API: handlers and logging middleware.

A shallow embedding of `handlers/handlers.go` and `main.go`.

* Go strings are Lean `String`s; `==` on strings is `String` equality.
* `time.Time` is an abstract instant (`Time`).  The standard-library
  formatter `Time.Format` is not part of the repository, so it is taken as a
  parameter `fmt : Time → String → String` wherever the code calls it.
* An `http.ResponseWriter` is modelled by the sequence of calls the code has
  made on it (`Header().Set`, `WriteHeader`, `json.NewEncoder(w).Encode`).
* The package variable `items` and the clock read by `time.Now()` form the
  `World` that is passed to and returned by every handler; lines written with
  `log.Printf` are returned as the `log` component of the `Outcome`.
-/

/-- An instant as returned by the Go call time.Now(). -/
abbrev Time := Int

namespace http

/-- The Go constant http.MethodGet. -/
def MethodGet : String := "GET"

/-- The Go constant http.StatusOK. -/
def StatusOK : Nat := 200

/-- The Go constant http.StatusBadRequest. -/
def StatusBadRequest : Nat := 400

/-- The Go constant http.StatusNotFound. -/
def StatusNotFound : Nat := 404

/-- The Go constant http.StatusMethodNotAllowed. -/
def StatusMethodNotAllowed : Nat := 405

/-- The fields of http.Request that the repository reads (Path is the field
URL.Path), together with the query and the headers, which it never reads. -/
structure Request where
  Method : String
  Path : String
  RawQuery : String
  Header : List (String × String)
  RequestURI : String
  RemoteAddr : String
deriving DecidableEq, Repr

end http

namespace time

/-- The Go layout constant time.RFC3339. -/
def RFC3339 : String := "2006-01-02T15:04:05Z07:00"

end time

namespace strings

/-- The Go function strings.HasPrefix. -/
def HasPrefix (s pre : String) : Bool :=
  pre.data.isPrefixOf s.data

/-- The Go function strings.TrimPrefix: s without the leading pre when s starts
with it, and s itself otherwise. -/
def TrimPrefix (s pre : String) : String :=
  if HasPrefix s pre then String.mk (s.data.drop pre.data.length) else s

end strings

namespace handlers

/-- Item represents a sample resource. -/
structure Item where
  ID : String
  Name : String
  CreatedAt : Time
deriving DecidableEq, Repr

/-- The dynamic values stored in the interface-typed field Response.Data: the nil
interface, one Item, the item slice, or a string-to-string map given by its
entries. -/
inductive Payload where
  | null
  | item (it : Item)
  | itemList (xs : List Item)
  | stringMap (entries : List (String × String))
deriving DecidableEq, Repr

/-- Response represents a standard API response. -/
structure Response where
  Success : Bool
  Data : Payload
  Error : String
deriving DecidableEq, Repr

/-- The JSON object keys the struct tags of Response produce: success always, data
unless the interface is nil, error unless the string is empty (omitempty). -/
def Response.jsonKeys (resp : Response) : List String :=
  ["success"] ++ (if resp.Data = Payload.null then [] else ["data"])
    ++ (if resp.Error = "" then [] else ["error"])

/-- One call made on an http.ResponseWriter. -/
inductive WriterCall where
  | headerSet (key value : String)
  | writeHeader (status : Nat)
  | encode (v : Response)
deriving DecidableEq, Repr

/-- An http.ResponseWriter, as the calls made on it so far, oldest first. -/
abbrev ResponseWriter := List WriterCall

/-- The state the handlers run in: the package variable items and the instant
the next time.Now() call returns. -/
structure World where
  items : List Item
  now : Time
deriving DecidableEq, Repr

/-- What running a handler leaves behind: the world, the response writer and the
lines written to the standard logger, oldest first. -/
structure Outcome where
  world : World
  w : ResponseWriter
  log : List String
deriving DecidableEq, Repr

/-- The Go type http.HandlerFunc. -/
abbrev Handler := ResponseWriter → http.Request → World → Outcome

/-- In-memory storage for demo purposes: the initial value of the package
variable, given the three instants its time.Now() calls return. -/
def items (t₁ t₂ t₃ : Time) : List Item :=
  [ Item.mk "1" "Item One" t₁,
    Item.mk "2" "Item Two" t₂,
    Item.mk "3" "Item Three" t₃ ]

/-- The helper respondJSON: sets the content type, writes the status, encodes
the data. -/
def respondJSON (w : ResponseWriter) (status : Nat) (data : Response) : ResponseWriter :=
  w ++ [WriterCall.headerSet "Content-Type" "application/json",
        WriterCall.writeHeader status,
        WriterCall.encode data]

/-- HealthCheck returns the health status of the API. -/
def HealthCheck (fmt : Time → String → String) : Handler := fun w _r σ =>
  Outcome.mk σ
    (respondJSON w http.StatusOK
      (Response.mk true
        (Payload.stringMap [("status", "healthy"), ("time", fmt σ.now time.RFC3339)])
        ""))
    []

/-- GetItems returns all items. -/
def GetItems : Handler := fun w r σ =>
  if r.Method ≠ http.MethodGet then
    Outcome.mk σ
      (respondJSON w http.StatusMethodNotAllowed
        (Response.mk false Payload.null "Method not allowed"))
      []
  else
    Outcome.mk σ
      (respondJSON w http.StatusOK (Response.mk true (Payload.itemList σ.items) ""))
      []

/-- The range loop of GetItemByID: the response written for the first item whose
ID equals path, and none when the loop runs to its end. -/
def GetItemByID.find (w : ResponseWriter) (path : String) : List Item → Option ResponseWriter
  | [] => none
  | item :: rest =>
    if item.ID = path then
      some (respondJSON w http.StatusOK (Response.mk true (Payload.item item) ""))
    else
      GetItemByID.find w path rest

/-- GetItemByID returns a single item by ID. -/
def GetItemByID : Handler := fun w r σ =>
  if r.Method ≠ http.MethodGet then
    Outcome.mk σ
      (respondJSON w http.StatusMethodNotAllowed
        (Response.mk false Payload.null "Method not allowed"))
      []
  else
    let path := strings.TrimPrefix r.Path "/api/v1/items/"
    if path = "" then
      Outcome.mk σ
        (respondJSON w http.StatusBadRequest
          (Response.mk false Payload.null "Item ID is required"))
        []
    else
      match GetItemByID.find w path σ.items with
      | some w₁ => Outcome.mk σ w₁ []
      | none =>
        Outcome.mk σ
          (respondJSON w http.StatusNotFound
            (Response.mk false Payload.null "Item not found"))
          []

end handlers

namespace server

open handlers

/-- The message of log.Printf with format "%s %s %s". -/
def logLine (r : http.Request) : String :=
  r.Method ++ " " ++ r.RequestURI ++ " " ++ r.RemoteAddr

/-- The middleware loggingMiddleware logs all incoming requests: it writes one
line and then serves the request with next. -/
def loggingMiddleware (next : Handler) : Handler := fun w r σ =>
  let out := next w r σ
  Outcome.mk out.world out.w (logLine r :: out.log)

/-- The three handlers main registers on the mux. -/
inductive Endpoint where
  | health
  | list
  | byID
deriving DecidableEq, Repr

/-- The handler main registers for an endpoint. -/
def Endpoint.handler (fmt : Time → String → String) : Endpoint → Handler
  | Endpoint.health => HealthCheck fmt
  | Endpoint.list => GetItems
  | Endpoint.byID => GetItemByID

/-- One served request: the handler that runs, whether it runs behind the logging
middleware, the writer and request it is given, and the instant the clock shows. -/
structure Served where
  endpoint : Endpoint
  logged : Bool
  w : ResponseWriter
  r : http.Request
  now : Time

/-- The world after one request is served. -/
def serve (fmt : Time → String → String) (σ : World) (s : Served) : World :=
  let h := if s.logged then loggingMiddleware (s.endpoint.handler fmt) else s.endpoint.handler fmt
  (h s.w s.r (World.mk σ.items s.now)).world

/-- The world after a sequence of requests is served, one after the other. -/
def serveAll (fmt : Time → String → String) (σ : World) (reqs : List Served) : World :=
  reqs.foldl (serve fmt) σ

end server

/-! Auxiliary facts -/

namespace strings

lemma TrimPrefix_append (pre s : String) : TrimPrefix (pre ++ s) pre = s := by
  have h : HasPrefix (pre ++ s) pre = true := by
    simp [HasPrefix, String.data_append]
  simp [TrimPrefix, h, String.data_append]

end strings

namespace handlers

lemma respondJSON_inj (w : ResponseWriter) (s₁ s₂ : Nat) (d₁ d₂ : Response)
    (h : respondJSON w s₁ d₁ = respondJSON w s₂ d₂) : s₁ = s₂ ∧ d₁ = d₂ := by
  unfold respondJSON at h
  have h₁ := List.append_cancel_left h
  simp at h₁
  exact h₁

lemma find_eq_none (w : ResponseWriter) (path : String) (xs : List Item)
    (h : ∀ it ∈ xs, it.ID ≠ path) : GetItemByID.find w path xs = none := by
  induction xs with
  | nil => rfl
  | cons x rest ih =>
    have hx : x.ID ≠ path := h x (List.mem_cons_self _ _)
    have hr : ∀ it ∈ rest, it.ID ≠ path := fun it hit => h it (List.mem_cons_of_mem _ hit)
    simp [GetItemByID.find, hx, ih hr]

lemma find_eq_some (w : ResponseWriter) (path : String) (xs : List Item)
    (h : ∃ it ∈ xs, it.ID = path) :
    ∃ it ∈ xs, it.ID = path ∧
      GetItemByID.find w path xs =
        some (respondJSON w 200 (Response.mk true (Payload.item it) "")) := by
  induction xs with
  | nil => simp at h
  | cons x rest ih =>
    by_cases hx : x.ID = path
    · exact ⟨x, List.mem_cons_self _ _, hx, by simp [GetItemByID.find, hx, http.StatusOK]⟩
    · have hr : ∃ it ∈ rest, it.ID = path := by
        obtain ⟨it, hit, hid⟩ := h
        rcases List.mem_cons.mp hit with rfl | hmem
        · exact absurd hid hx
        · exact ⟨it, hmem, hid⟩
      obtain ⟨it, hit, hid, hf⟩ := ih hr
      exact ⟨it, List.mem_cons_of_mem _ hit, hid, by simp [GetItemByID.find, hx, hf]⟩

/-- A GET whose extracted id is non-empty and is the ID of no stored item is
answered 404. -/
lemma GetItemByID_of_absent (w : ResponseWriter) (r : http.Request) (σ : World) (id : String)
    (hm : r.Method = "GET") (hp : r.Path = "/api/v1/items/" ++ id) (hne : id ≠ "")
    (habs : ∀ it ∈ σ.items, it.ID ≠ id) :
    GetItemByID w r σ =
      Outcome.mk σ (respondJSON w 404 (Response.mk false Payload.null "Item not found")) [] := by
  simp [GetItemByID, hm, hp, http.MethodGet, strings.TrimPrefix_append, hne,
    find_eq_none w id σ.items habs, http.StatusNotFound]

/-- A GET whose extracted id is the ID of a stored item is answered 200 with such
an item. -/
lemma GetItemByID_of_present (w : ResponseWriter) (r : http.Request) (σ : World) (id : String)
    (hm : r.Method = "GET") (hp : r.Path = "/api/v1/items/" ++ id) (hne : id ≠ "")
    (hpres : ∃ it ∈ σ.items, it.ID = id) :
    ∃ it ∈ σ.items, it.ID = id ∧
      GetItemByID w r σ =
        Outcome.mk σ (respondJSON w 200 (Response.mk true (Payload.item it) "")) [] := by
  obtain ⟨it, hit, hid, hf⟩ := find_eq_some w id σ.items hpres
  exact ⟨it, hit, hid, by
    simp [GetItemByID, hm, hp, http.MethodGet, strings.TrimPrefix_append, hne, hf]⟩

end handlers

/-! Get item by id -/

namespace handlers

/-- C1: on the seeded store, a GET of "/api/v1/items/" ++ id for id among "1", "2",
"3" is answered with status 200 and the success envelope whose data is the seeded
item with that id and whose error is empty: the writer receives, after what it
already held, the JSON content type, the status 200 and that envelope, and
nothing else; the world is left as it was. -/
theorem GetItemByID_seeded_ok (t₁ t₂ t₃ now : Time) (w : ResponseWriter) (r : http.Request)
    (id : String) (hm : r.Method = "GET") (hid : id ∈ ["1", "2", "3"])
    (hp : r.Path = "/api/v1/items/" ++ id) :
    ∃ it ∈ items t₁ t₂ t₃, it.ID = id ∧
      GetItemByID w r (World.mk (items t₁ t₂ t₃) now) =
        Outcome.mk (World.mk (items t₁ t₂ t₃) now)
          (w ++ [WriterCall.headerSet "Content-Type" "application/json",
            WriterCall.writeHeader 200,
            WriterCall.encode (Response.mk true (Payload.item it) "")]) [] := by
  have hne : id ≠ "" := by
    intro h
    subst h
    revert hid
    decide
  have hpres : ∃ it ∈ (World.mk (items t₁ t₂ t₃) now).items, it.ID = id := by
    simp only [List.mem_cons, List.mem_singleton, List.not_mem_nil, or_false] at hid
    rcases hid with h | h | h
    · exact ⟨Item.mk "1" "Item One" t₁, by simp [items], h.symm⟩
    · exact ⟨Item.mk "2" "Item Two" t₂, by simp [items], h.symm⟩
    · exact ⟨Item.mk "3" "Item Three" t₃, by simp [items], h.symm⟩
  exact GetItemByID_of_present w r (World.mk (items t₁ t₂ t₃) now) id hm hp hne hpres

theorem GetItemByID_seeded_ok_witness :
    ("GET" : String) = "GET" ∧ "2" ∈ ["1", "2", "3"] ∧
    ("/api/v1/items/2" : String) = "/api/v1/items/" ++ "2" ∧
    ∃ it ∈ items 10 20 30, it.ID = "2" ∧
      GetItemByID [] (http.Request.mk "GET" "/api/v1/items/2" "" [] "/api/v1/items/2" "10.0.0.7:4000")
          (World.mk (items 10 20 30) 40) =
        Outcome.mk (World.mk (items 10 20 30) 40)
          ([] ++ [WriterCall.headerSet "Content-Type" "application/json",
            WriterCall.writeHeader 200,
            WriterCall.encode (Response.mk true (Payload.item it) "")]) [] :=
  ⟨rfl, by decide, by decide,
    GetItemByID_seeded_ok 10 20 30 40 []
      (http.Request.mk "GET" "/api/v1/items/2" "" [] "/api/v1/items/2" "10.0.0.7:4000")
      "2" rfl (by decide) (by decide)⟩

/-- C2: on the seeded store, a GET of "/api/v1/items/" ++ id with id non-empty and
different from "1", "2" and "3" is answered with status 404 and the failure
envelope with error "Item not found" and no data.  Matching is exact string
equality: on any store, that answer is given exactly when no stored item has an
ID equal to id. -/
theorem GetItemByID_unknown_notFound (t₁ t₂ t₃ now : Time) (w : ResponseWriter)
    (r : http.Request) (id : String) (hm : r.Method = "GET")
    (hp : r.Path = "/api/v1/items/" ++ id) (hne : id ≠ "") (hid : id ∉ ["1", "2", "3"]) :
    GetItemByID w r (World.mk (items t₁ t₂ t₃) now) =
        Outcome.mk (World.mk (items t₁ t₂ t₃) now)
          (respondJSON w 404 (Response.mk false Payload.null "Item not found")) [] ∧
    ∀ σ : World,
      (GetItemByID w r σ =
          Outcome.mk σ (respondJSON w 404 (Response.mk false Payload.null "Item not found")) []
        ↔ ∀ it ∈ σ.items, it.ID ≠ id) := by
  refine ⟨?_, ?_⟩
  · apply GetItemByID_of_absent w r _ id hm hp hne
    intro it hit heq
    apply hid
    simp only [items, List.mem_cons, List.mem_singleton, List.not_mem_nil, or_false] at hit
    rcases hit with rfl | rfl | rfl <;> simp [← heq]
  · intro σ
    constructor
    · intro h it hit heq
      obtain ⟨it₁, _, _, h₁⟩ := GetItemByID_of_present w r σ id hm hp hne ⟨it, hit, heq⟩
      rw [h₁] at h
      have h₂ := (respondJSON_inj w _ _ _ _ (congrArg Outcome.w h)).1
      exact absurd h₂ (by decide)
    · exact GetItemByID_of_absent w r σ id hm hp hne

theorem GetItemByID_unknown_notFound_witness :
    ("GET" : String) = "GET" ∧
    ("/api/v1/items/unknown-id" : String) = "/api/v1/items/" ++ "unknown-id" ∧
    ("unknown-id" : String) ≠ "" ∧ "unknown-id" ∉ ["1", "2", "3"] ∧
    (GetItemByID []
          (http.Request.mk "GET" "/api/v1/items/unknown-id" "" [] "/api/v1/items/unknown-id" "10.0.0.7:4000")
          (World.mk (items 10 20 30) 40) =
        Outcome.mk (World.mk (items 10 20 30) 40)
          (respondJSON [] 404 (Response.mk false Payload.null "Item not found")) [] ∧
      ∀ σ : World,
        (GetItemByID []
            (http.Request.mk "GET" "/api/v1/items/unknown-id" "" [] "/api/v1/items/unknown-id" "10.0.0.7:4000") σ =
            Outcome.mk σ (respondJSON [] 404 (Response.mk false Payload.null "Item not found")) []
          ↔ ∀ it ∈ σ.items, it.ID ≠ "unknown-id")) :=
  ⟨rfl, by decide, by decide, by decide,
    GetItemByID_unknown_notFound 10 20 30 40 []
      (http.Request.mk "GET" "/api/v1/items/unknown-id" "" [] "/api/v1/items/unknown-id" "10.0.0.7:4000")
      "unknown-id" rfl (by decide) (by decide) (by decide)⟩

/-- C3: a GET whose path is exactly "/api/v1/items/" is answered with status 400
and the failure envelope with error "Item ID is required" and no data: the writer
receives the JSON content type, the status 400 and that envelope, and nothing
else, whatever the item store holds, so the answer is the same on every world. -/
theorem GetItemByID_empty_id_badRequest (w : ResponseWriter) (r : http.Request)
    (hm : r.Method = "GET") (hp : r.Path = "/api/v1/items/") :
    (∀ σ : World,
      GetItemByID w r σ =
        Outcome.mk σ
          (w ++ [WriterCall.headerSet "Content-Type" "application/json",
            WriterCall.writeHeader 400,
            WriterCall.encode (Response.mk false Payload.null "Item ID is required")]) []) ∧
    ∀ σ₁ σ₂ : World, (GetItemByID w r σ₁).w = (GetItemByID w r σ₂).w := by
  have htrim : strings.TrimPrefix "/api/v1/items/" "/api/v1/items/" = "" := by decide
  have h : ∀ σ : World,
      GetItemByID w r σ =
        Outcome.mk σ
          (w ++ [WriterCall.headerSet "Content-Type" "application/json",
            WriterCall.writeHeader 400,
            WriterCall.encode (Response.mk false Payload.null "Item ID is required")]) [] := by
    intro σ
    simp [GetItemByID, hm, hp, http.MethodGet, htrim, http.StatusBadRequest, respondJSON]
  exact ⟨h, fun σ₁ σ₂ => by rw [h σ₁, h σ₂]⟩

theorem GetItemByID_empty_id_badRequest_witness :
    ("GET" : String) = "GET" ∧ ("/api/v1/items/" : String) = "/api/v1/items/" ∧
    ((∀ σ : World,
      GetItemByID [] (http.Request.mk "GET" "/api/v1/items/" "" [] "/api/v1/items/" "10.0.0.7:4000") σ =
        Outcome.mk σ
          ([] ++ [WriterCall.headerSet "Content-Type" "application/json",
            WriterCall.writeHeader 400,
            WriterCall.encode (Response.mk false Payload.null "Item ID is required")]) []) ∧
    ∀ σ₁ σ₂ : World,
      (GetItemByID [] (http.Request.mk "GET" "/api/v1/items/" "" [] "/api/v1/items/" "10.0.0.7:4000") σ₁).w =
      (GetItemByID [] (http.Request.mk "GET" "/api/v1/items/" "" [] "/api/v1/items/" "10.0.0.7:4000") σ₂).w) :=
  ⟨rfl, rfl,
    GetItemByID_empty_id_badRequest []
      (http.Request.mk "GET" "/api/v1/items/" "" [] "/api/v1/items/" "10.0.0.7:4000") rfl rfl⟩

end handlers

/-! Method check, list, health and extra separators -/

namespace handlers

/-- C4: for a request whose method is not "GET", whatever its path, GetItems and
GetItemByID both answer with status 405 and the failure envelope with error
"Method not allowed" and no data: the writer receives the JSON content type, the
status 405 and that envelope, and nothing else; in GetItemByID this comes before
the empty-id check and the lookup. -/
theorem method_not_allowed (w : ResponseWriter) (r : http.Request) (σ : World)
    (hm : r.Method ≠ "GET") :
    GetItems w r σ =
        Outcome.mk σ
          (w ++ [WriterCall.headerSet "Content-Type" "application/json",
            WriterCall.writeHeader 405,
            WriterCall.encode (Response.mk false Payload.null "Method not allowed")]) [] ∧
    GetItemByID w r σ =
        Outcome.mk σ
          (w ++ [WriterCall.headerSet "Content-Type" "application/json",
            WriterCall.writeHeader 405,
            WriterCall.encode (Response.mk false Payload.null "Method not allowed")]) [] := by
  constructor
  · simp [GetItems, http.MethodGet, hm, http.StatusMethodNotAllowed, respondJSON]
  · simp [GetItemByID, http.MethodGet, hm, http.StatusMethodNotAllowed, respondJSON]

theorem method_not_allowed_witness :
    ("POST" : String) ≠ "GET" ∧
    GetItems [] (http.Request.mk "POST" "/api/v1/items/1" "" [] "/api/v1/items/1" "10.0.0.7:4000")
        (World.mk (items 10 20 30) 40) =
      Outcome.mk (World.mk (items 10 20 30) 40)
        ([] ++ [WriterCall.headerSet "Content-Type" "application/json",
            WriterCall.writeHeader 405,
            WriterCall.encode (Response.mk false Payload.null "Method not allowed")]) [] ∧
    GetItemByID [] (http.Request.mk "POST" "/api/v1/items/1" "" [] "/api/v1/items/1" "10.0.0.7:4000")
        (World.mk (items 10 20 30) 40) =
      Outcome.mk (World.mk (items 10 20 30) 40)
        ([] ++ [WriterCall.headerSet "Content-Type" "application/json",
            WriterCall.writeHeader 405,
            WriterCall.encode (Response.mk false Payload.null "Method not allowed")]) [] :=
  ⟨by decide,
    method_not_allowed []
      (http.Request.mk "POST" "/api/v1/items/1" "" [] "/api/v1/items/1" "10.0.0.7:4000")
      (World.mk (items 10 20 30) 40) (by decide)⟩

/-- C5: on the seeded store, every GET is answered by GetItems with status 200 and
the success envelope whose data is the whole store and whose error is empty: the
writer receives the JSON content type, the status 200 and that envelope, and
nothing else; the data written has exactly 3 items with ids "1", "2", "3" in that
order.  Only the method of the request is looked at. -/
theorem GetItems_seeded_ok (t₁ t₂ t₃ now : Time) (w : ResponseWriter) (r : http.Request)
    (hm : r.Method = "GET") :
    GetItems w r (World.mk (items t₁ t₂ t₃) now) =
        Outcome.mk (World.mk (items t₁ t₂ t₃) now)
          (w ++ [WriterCall.headerSet "Content-Type" "application/json",
            WriterCall.writeHeader 200,
            WriterCall.encode (Response.mk true (Payload.itemList (items t₁ t₂ t₃)) "")]) [] ∧
    (items t₁ t₂ t₃).length = 3 ∧
    (items t₁ t₂ t₃).map Item.ID = ["1", "2", "3"] := by
  refine ⟨?_, rfl, rfl⟩
  simp [GetItems, http.MethodGet, hm, http.StatusOK, respondJSON]

theorem GetItems_seeded_ok_witness :
    ("GET" : String) = "GET" ∧
    GetItems [] (http.Request.mk "GET" "/anything" "page=2" [("Accept", "text/plain")]
          "/anything?page=2" "10.0.0.7:4000")
        (World.mk (items 10 20 30) 40) =
      Outcome.mk (World.mk (items 10 20 30) 40)
        ([] ++ [WriterCall.headerSet "Content-Type" "application/json",
            WriterCall.writeHeader 200,
            WriterCall.encode (Response.mk true (Payload.itemList (items 10 20 30)) "")]) [] ∧
    (items 10 20 30).length = 3 ∧
    (items 10 20 30).map Item.ID = ["1", "2", "3"] :=
  ⟨rfl,
    GetItems_seeded_ok 10 20 30 40 []
      (http.Request.mk "GET" "/anything" "page=2" [("Accept", "text/plain")]
        "/anything?page=2" "10.0.0.7:4000") rfl⟩

/-- C6: for every request and every clock reading, HealthCheck answers with status
200 and a success envelope with empty error whose data is a map with exactly the
keys "status" and "time", the value at "status" being "healthy" and the value at
"time" the RFC3339 rendering of the clock reading: the writer receives the JSON
content type, the status 200 and that envelope, and nothing else; it never
answers with a failure envelope. -/
theorem HealthCheck_ok (fmt : Time → String → String) (w : ResponseWriter)
    (r : http.Request) (σ : World) :
    ∃ m : List (String × String),
      HealthCheck fmt w r σ =
        Outcome.mk σ (w ++ [WriterCall.headerSet "Content-Type" "application/json",
            WriterCall.writeHeader 200,
            WriterCall.encode (Response.mk true (Payload.stringMap m) "")]) [] ∧
      m.map Prod.fst = ["status", "time"] ∧
      m.lookup "status" = some "healthy" ∧
      m.lookup "time" = some (fmt σ.now "2006-01-02T15:04:05Z07:00") :=
  ⟨[("status", "healthy"), ("time", fmt σ.now time.RFC3339)], rfl, rfl, rfl, rfl⟩

/-- C10: on the seeded store, a GET of "/api/v1/items/" ++ rest with rest non-empty
and containing a slash uses the whole of rest as the id, which no seeded item
has, and is answered with status 404 and error "Item not found": the writer
receives the JSON content type, the status 404 and that failure envelope, and
nothing else (so neither a 400 nor item "1"). -/
theorem GetItemByID_extra_separator_notFound (t₁ t₂ t₃ now : Time) (w : ResponseWriter)
    (r : http.Request) (rest : String) (hm : r.Method = "GET")
    (hp : r.Path = "/api/v1/items/" ++ rest) (hne : rest ≠ "") (hs : '/' ∈ rest.data) :
    strings.TrimPrefix r.Path "/api/v1/items/" = rest ∧
    (∀ it ∈ items t₁ t₂ t₃, it.ID ≠ rest) ∧
    GetItemByID w r (World.mk (items t₁ t₂ t₃) now) =
      Outcome.mk (World.mk (items t₁ t₂ t₃) now)
        (w ++ [WriterCall.headerSet "Content-Type" "application/json",
            WriterCall.writeHeader 404,
            WriterCall.encode (Response.mk false Payload.null "Item not found")]) [] := by
  have habs : ∀ it ∈ items t₁ t₂ t₃, it.ID ≠ rest := by
    intro it hit heq
    simp only [items, List.mem_cons, List.mem_singleton, List.not_mem_nil, or_false] at hit
    rcases hit with rfl | rfl | rfl <;> subst heq
    · exact (by decide : '/' ∉ ("1" : String).data) hs
    · exact (by decide : '/' ∉ ("2" : String).data) hs
    · exact (by decide : '/' ∉ ("3" : String).data) hs
  exact ⟨by rw [hp, strings.TrimPrefix_append], habs,
    GetItemByID_of_absent w r (World.mk (items t₁ t₂ t₃) now) rest hm hp hne habs⟩

theorem GetItemByID_extra_separator_notFound_witness :
    ("GET" : String) = "GET" ∧ ("/api/v1/items/1/" : String) = "/api/v1/items/" ++ "1/" ∧
    ("1/" : String) ≠ "" ∧ '/' ∈ ("1/" : String).data ∧
    strings.TrimPrefix "/api/v1/items/1/" "/api/v1/items/" = "1/" ∧
    (∀ it ∈ items 10 20 30, it.ID ≠ "1/") ∧
    GetItemByID [] (http.Request.mk "GET" "/api/v1/items/1/" "" [] "/api/v1/items/1/" "10.0.0.7:4000")
        (World.mk (items 10 20 30) 40) =
      Outcome.mk (World.mk (items 10 20 30) 40)
        ([] ++ [WriterCall.headerSet "Content-Type" "application/json",
            WriterCall.writeHeader 404,
            WriterCall.encode (Response.mk false Payload.null "Item not found")]) [] :=
  ⟨rfl, by decide, by decide, by decide,
    GetItemByID_extra_separator_notFound 10 20 30 40 []
      (http.Request.mk "GET" "/api/v1/items/1/" "" [] "/api/v1/items/1/" "10.0.0.7:4000")
      "1/" rfl (by decide) (by decide) (by decide)⟩

end handlers

/-! The envelope invariant, the store is never written, the logging middleware -/

namespace handlers

lemma HealthCheck_world (fmt : Time → String → String) (w : ResponseWriter) (r : http.Request)
    (σ : World) : (HealthCheck fmt w r σ).world = σ := rfl

lemma GetItems_world (w : ResponseWriter) (r : http.Request) (σ : World) :
    (GetItems w r σ).world = σ := by
  unfold GetItems
  split_ifs <;> rfl

lemma GetItemByID_world (w : ResponseWriter) (r : http.Request) (σ : World) :
    (GetItemByID w r σ).world = σ := by
  unfold GetItemByID
  by_cases hm : r.Method ≠ http.MethodGet
  · rw [if_pos hm]
  · by_cases hp : strings.TrimPrefix r.Path "/api/v1/items/" = ""
    · rw [if_neg hm]
      simp only [hp, if_true]
    · rw [if_neg hm]
      simp only [hp, if_false]
      cases GetItemByID.find w (strings.TrimPrefix r.Path "/api/v1/items/") σ.items <;> rfl

lemma GetItems_w_congr (w : ResponseWriter) (r r₁ : http.Request) (σ σ₁ : World)
    (hm : r₁.Method = r.Method) (hi : σ₁.items = σ.items) :
    (GetItems w r₁ σ₁).w = (GetItems w r σ).w := by
  unfold GetItems
  rw [hm, hi]
  split_ifs <;> rfl

lemma GetItemByID_w_congr (w : ResponseWriter) (r r₁ : http.Request) (σ σ₁ : World)
    (hm : r₁.Method = r.Method) (hp : r₁.Path = r.Path) (hi : σ₁.items = σ.items) :
    (GetItemByID w r₁ σ₁).w = (GetItemByID w r σ).w := by
  unfold GetItemByID
  rw [hm, hp, hi]
  by_cases hg : r.Method ≠ http.MethodGet
  · rw [if_pos hg, if_pos hg]
  · by_cases he : strings.TrimPrefix r.Path "/api/v1/items/" = ""
    · rw [if_neg hg, if_neg hg]
      simp only [he, if_true]
    · rw [if_neg hg, if_neg hg]
      simp only [he, if_false]
      cases GetItemByID.find w (strings.TrimPrefix r.Path "/api/v1/items/") σ.items <;> rfl

end handlers

namespace server

open handlers

lemma Endpoint.handler_world (fmt : Time → String → String) (ep : Endpoint)
    (w : ResponseWriter) (r : http.Request) (σ : World) :
    (ep.handler fmt w r σ).world = σ := by
  cases ep
  · exact HealthCheck_world fmt w r σ
  · exact GetItems_world w r σ
  · exact GetItemByID_world w r σ

lemma serve_items (fmt : Time → String → String) (σ : World) (s : Served) :
    (serve fmt σ s).items = σ.items := by
  unfold serve
  cases s.logged <;> simp [loggingMiddleware, Endpoint.handler_world]

lemma serveAll_items (fmt : Time → String → String) (reqs : List Served) (σ : World) :
    (serveAll fmt σ reqs).items = σ.items := by
  induction reqs generalizing σ with
  | nil => rfl
  | cons s rest ih =>
    have h := ih (serve fmt σ s)
    simp only [serveAll, List.foldl_cons] at h ⊢
    rw [h, serve_items]

/-- C7: each of HealthCheck, GetItems and GetItemByID (the handler of any of the
three endpoints) answers every request with one status and one envelope such that
success implies an empty error and present data, failure implies absent data and a
non-empty error, the JSON keys are success and data on success and success and
error on failure, and success holds exactly when the status is 200. -/
theorem handlers_keep_envelope (fmt : Time → String → String) (ep : Endpoint)
    (w : ResponseWriter) (r : http.Request) (σ : World) :
    ∃ (status : Nat) (resp : Response),
      (ep.handler fmt w r σ).w = respondJSON w status resp ∧
      (resp.Success = true → resp.Error = "" ∧ resp.Data ≠ Payload.null) ∧
      (resp.Success = false → resp.Data = Payload.null ∧ resp.Error ≠ "") ∧
      resp.jsonKeys = (if resp.Success then ["success", "data"] else ["success", "error"]) ∧
      (resp.Success = true ↔ status = 200) := by
  cases ep
  · exact ⟨200, _, rfl, by simp, by simp, by simp [Response.jsonKeys], by simp⟩
  · by_cases hm : r.Method = "GET"
    · exact ⟨200, Response.mk true (Payload.itemList σ.items) "",
        by simp [Endpoint.handler, GetItems, http.MethodGet, hm, http.StatusOK],
        by simp, by simp, by simp [Response.jsonKeys], by simp⟩
    · exact ⟨405, Response.mk false Payload.null "Method not allowed",
        by simp [Endpoint.handler, GetItems, http.MethodGet, hm, http.StatusMethodNotAllowed],
        by simp, by simp, by simp [Response.jsonKeys], by simp⟩
  · by_cases hm : r.Method = "GET"
    · by_cases hp : strings.TrimPrefix r.Path "/api/v1/items/" = ""
      · exact ⟨400, Response.mk false Payload.null "Item ID is required",
          by simp [Endpoint.handler, GetItemByID, http.MethodGet, hm, hp, http.StatusBadRequest],
          by simp, by simp, by simp [Response.jsonKeys], by simp⟩
      · by_cases hpres : ∃ it ∈ σ.items, it.ID = strings.TrimPrefix r.Path "/api/v1/items/"
        · obtain ⟨it, _, _, hf⟩ := find_eq_some w _ σ.items hpres
          exact ⟨200, Response.mk true (Payload.item it) "",
            by simp [Endpoint.handler, GetItemByID, http.MethodGet, hm, hp, hf],
            by simp, by simp, by simp [Response.jsonKeys], by simp⟩
        · have hf := find_eq_none w (strings.TrimPrefix r.Path "/api/v1/items/") σ.items
            (fun it hit heq => hpres ⟨it, hit, heq⟩)
          exact ⟨404, Response.mk false Payload.null "Item not found",
            by simp [Endpoint.handler, GetItemByID, http.MethodGet, hm, hp, hf,
              http.StatusNotFound],
            by simp, by simp, by simp [Response.jsonKeys], by simp⟩
    · exact ⟨405, Response.mk false Payload.null "Method not allowed",
        by simp [Endpoint.handler, GetItemByID, http.MethodGet, hm,
          http.StatusMethodNotAllowed],
        by simp, by simp, by simp [Response.jsonKeys], by simp⟩

/-- C8: no handler writes the item store: each of the three handlers returns the
world it was given, so the store after any sequence of served requests is the
store before it, and a GetItemByID call made after it with the same method and
path as one made before it leaves the same status and envelope on the writer; the
same holds for two GetItems calls with the same method. -/
theorem repeated_requests_same_answer (fmt : Time → String → String) (σ : World)
    (reqs : List Served) (w : ResponseWriter) (r r₁ : http.Request) (t : Time)
    (hm : r₁.Method = r.Method) (hp : r₁.Path = r.Path) :
    (∀ (ep : Endpoint) (w₀ : ResponseWriter) (r₀ : http.Request) (σ₀ : World),
      (ep.handler fmt w₀ r₀ σ₀).world = σ₀) ∧
    (serveAll fmt σ reqs).items = σ.items ∧
    (GetItemByID w r₁
        (World.mk (serveAll fmt (GetItemByID w r σ).world reqs).items t)).w =
      (GetItemByID w r σ).w ∧
    (GetItems w r₁
        (World.mk (serveAll fmt (GetItems w r σ).world reqs).items t)).w =
      (GetItems w r σ).w := by
  refine ⟨Endpoint.handler_world fmt, serveAll_items fmt reqs σ, ?_, ?_⟩
  · apply GetItemByID_w_congr w r r₁ σ _ hm hp
    simp [serveAll_items, GetItemByID_world]
  · apply GetItems_w_congr w r r₁ σ _ hm
    simp [serveAll_items, GetItems_world]

theorem repeated_requests_same_answer_witness :
    ("GET" : String) = "GET" ∧ ("/api/v1/items/3" : String) = "/api/v1/items/3" ∧
    ((∀ (ep : Endpoint) (w₀ : ResponseWriter) (r₀ : http.Request) (σ₀ : World),
      (ep.handler (fun _ _ => "2024-05-01T10:00:00Z") w₀ r₀ σ₀).world = σ₀) ∧
    (serveAll (fun _ _ => "2024-05-01T10:00:00Z") (World.mk (items 10 20 30) 40)
        [Served.mk Endpoint.health true []
          (http.Request.mk "POST" "/health" "" [] "/health" "10.0.0.8:4100") 41,
         Served.mk Endpoint.byID true []
          (http.Request.mk "GET" "/api/v1/items/1" "" [] "/api/v1/items/1" "10.0.0.9:4200") 42]).items =
      (World.mk (items 10 20 30) 40).items ∧
    (GetItemByID []
        (http.Request.mk "GET" "/api/v1/items/3" "v=2" [] "/api/v1/items/3?v=2" "10.0.0.9:4200")
        (World.mk
          (serveAll (fun _ _ => "2024-05-01T10:00:00Z")
            (GetItemByID []
              (http.Request.mk "GET" "/api/v1/items/3" "" [] "/api/v1/items/3" "10.0.0.7:4000")
              (World.mk (items 10 20 30) 40)).world
            [Served.mk Endpoint.health true []
              (http.Request.mk "POST" "/health" "" [] "/health" "10.0.0.8:4100") 41,
             Served.mk Endpoint.byID true []
              (http.Request.mk "GET" "/api/v1/items/1" "" [] "/api/v1/items/1" "10.0.0.9:4200") 42]).items
          43)).w =
      (GetItemByID []
        (http.Request.mk "GET" "/api/v1/items/3" "" [] "/api/v1/items/3" "10.0.0.7:4000")
        (World.mk (items 10 20 30) 40)).w ∧
    (GetItems []
        (http.Request.mk "GET" "/api/v1/items/3" "v=2" [] "/api/v1/items/3?v=2" "10.0.0.9:4200")
        (World.mk
          (serveAll (fun _ _ => "2024-05-01T10:00:00Z")
            (GetItems []
              (http.Request.mk "GET" "/api/v1/items/3" "" [] "/api/v1/items/3" "10.0.0.7:4000")
              (World.mk (items 10 20 30) 40)).world
            [Served.mk Endpoint.health true []
              (http.Request.mk "POST" "/health" "" [] "/health" "10.0.0.8:4100") 41,
             Served.mk Endpoint.byID true []
              (http.Request.mk "GET" "/api/v1/items/1" "" [] "/api/v1/items/1" "10.0.0.9:4200") 42]).items
          43)).w =
      (GetItems []
        (http.Request.mk "GET" "/api/v1/items/3" "" [] "/api/v1/items/3" "10.0.0.7:4000")
        (World.mk (items 10 20 30) 40)).w) :=
  ⟨rfl, rfl,
    repeated_requests_same_answer (fun _ _ => "2024-05-01T10:00:00Z")
      (World.mk (items 10 20 30) 40)
      [Served.mk Endpoint.health true []
        (http.Request.mk "POST" "/health" "" [] "/health" "10.0.0.8:4100") 41,
       Served.mk Endpoint.byID true []
        (http.Request.mk "GET" "/api/v1/items/1" "" [] "/api/v1/items/1" "10.0.0.9:4200") 42]
      []
      (http.Request.mk "GET" "/api/v1/items/3" "" [] "/api/v1/items/3" "10.0.0.7:4000")
      (http.Request.mk "GET" "/api/v1/items/3" "v=2" [] "/api/v1/items/3?v=2" "10.0.0.9:4200")
      43 rfl rfl⟩

/-- C9: for every next handler and request, the middleware writes exactly one log
line, made of the method, the request URI and the remote address of the request,
ahead of whatever next logs, and otherwise leaves exactly what next leaves when
given the same writer, request and world: the same response and the same world. -/
theorem loggingMiddleware_logs_then_forwards (next : Handler) (w : ResponseWriter)
    (r : http.Request) (σ : World) :
    (loggingMiddleware next w r σ).log =
        (r.Method ++ " " ++ r.RequestURI ++ " " ++ r.RemoteAddr) :: (next w r σ).log ∧
    (loggingMiddleware next w r σ).w = (next w r σ).w ∧
    (loggingMiddleware next w r σ).world = (next w r σ).world :=
  ⟨rfl, rfl, rfl⟩

end server
